import Mathlib

/-!
Verification of the payment issuance & verification core of the
crypto-signals platform, shallowly embedded from the Python source:

* `src/models/payment.py`                — the persisted `Payment` entity
* `src/routes/payments.py`               — sync / cancel / force-confirm routes
* `src/services/payment_service.py`      — provider selection and status checks
* `src/services/blockchain_service.py`   — per-network chain verifiers

Conventions: machine floats become `ℚ`; Python `dict.get` becomes `Option`;
Python string truthiness (`if s:`) becomes `truthy`; wall-clock readings and
random draws become explicit parameters; each HTTP call's outcome is an
explicit `Option`/`Except` parameter (`none`/`.error` = the request failed).
-/

namespace CryptoSignals

/-- Python truthiness of an optional string: `None` and `""` are falsy. -/
def truthy : Option String → Bool
  | none => false
  | some s => !s.isEmpty

/-- Upsert into an association list, modelling `d[k] = v` on a JSON dict. -/
def upsert (d : List (String × String)) (k v : String) : List (String × String) :=
  match d with
  | [] => [(k, v)]
  | (k0, v0) :: rest => if k0 = k then (k, v) :: rest else (k0, v0) :: upsert rest k v

/-- The persisted payment entity (`Payment` in `src/models/payment.py`).
`payment_data` is the JSON blob, kept as an association list; timestamps
are abstract `Nat` readings of the clock. -/
structure Payment where
  id : String
  user_id : Int
  provider : String
  amount : ℚ
  currency : String
  status : String
  transaction_id : Option String
  payment_data : List (String × String)
  created_at : Nat
  updated_at : Nat
deriving Repr, DecidableEq

/-- The whitelist inside `Payment.update_status`. -/
def validStatuses : List String := ["pending", "completed", "failed", "cancelled"]

/-- `Payment.update_status(new_status, transaction_id=None)`: accepts exactly
the statuses in `validStatuses`; on success writes the status, overwrites
`transaction_id` when the argument is truthy, stamps `updated_at := now`,
and returns `True`.  Returns the updated record and the boolean result. -/
def Payment.update_status (p : Payment) (new_status : String)
    (transaction_id : Option String) (now : Nat) : Payment × Bool :=
  if new_status ∈ validStatuses then
    let p1 := { p with status := new_status }
    let p2 := if truthy transaction_id then { p1 with transaction_id := transaction_id } else p1
    ({ p2 with updated_at := now }, true)
  else
    (p, false)

/-- `Payment.mark_completed(transaction_id=None)`. -/
def Payment.mark_completed (p : Payment) (transaction_id : Option String) (now : Nat) :
    Payment × Bool :=
  p.update_status "completed" transaction_id now

/-- `Payment.set_payment_data` restricted to the dict case. -/
def Payment.set_payment_data (p : Payment) (d : List (String × String)) : Payment :=
  { p with payment_data := d }

/-- `Payment.mark_failed(reason=None)`: optionally records the reason in
`payment_data`, then transitions to `failed`. -/
def Payment.mark_failed (p : Payment) (reason : Option String) (now : Nat) : Payment × Bool :=
  let p1 := match reason with
    | some r => p.set_payment_data (upsert p.payment_data "failure_reason" r)
    | none => p
  p1.update_status "failed" none now

/-- `Payment.cancel(reason=None)`. -/
def Payment.cancel (p : Payment) (reason : Option String) (now : Nat) : Payment × Bool :=
  let p1 := match reason with
    | some r => p.set_payment_data (upsert p.payment_data "cancellation_reason" r)
    | none => p
  p1.update_status "cancelled" none now

/-- The `sync_payment` route (`src/routes/payments.py`): the simulated provider
result (drawn by `random.choice(['completed', 'pending', 'failed'])` in the
source) is passed in as `sync_result`; the route applies `update_status`
unconditionally and then records sync metadata in `payment_data`. -/
def sync_payment (p : Payment) (sync_result : String) (now : Nat) : Payment :=
  let p1 := (p.update_status sync_result none now).1
  let d1 := upsert p1.payment_data "last_sync" (toString now)
  let d2 := upsert d1 "sync_result" "success"
  p1.set_payment_data d2

/-- The `cancel_payment` route: only `pending` payments may be cancelled;
otherwise the record is untouched and the route reports failure. -/
def cancel_payment (p : Payment) (reason : Option String) (now : Nat) : Payment × Bool :=
  if p.status ∈ ["pending"] then
    ((p.cancel (some (reason.getD "Cancelled by admin")) now).1, true)
  else
    (p, false)

/-- The `force_confirm_payment` route: refuses only when the record is already
`completed`; otherwise marks it completed with the request's transaction id,
defaulting to the synthetic `ADMIN_OVERRIDE_<timestamp>` id, and records the
override metadata.  `req_transaction_id = none` models an absent JSON key. -/
def force_confirm_payment (p : Payment) (req_transaction_id : Option String)
    (current_user_id : Int) (now : Nat) : Payment × Bool :=
  if p.status = "completed" then
    (p, false)
  else
    let tid := req_transaction_id.getD ("ADMIN_OVERRIDE_" ++ toString now)
    let p1 := (p.mark_completed (some tid) now).1
    let d1 := upsert p1.payment_data "force_confirmed" "true"
    let d2 := upsert d1 "confirmed_by" (toString current_user_id)
    let d3 := upsert d2 "confirmed_at" (toString now)
    (p1.set_payment_data d3, true)

/-- Terminal statuses of the payment lifecycle (spec §3). -/
def isTerminal (s : String) : Bool :=
  s ∈ ["completed", "failed", "expired", "cancelled"]

/-! ## Payment service (`src/services/payment_service.py`) -/

/-- The credential configuration of `PaymentService.__init__`. -/
structure PaymentConfig where
  nowpayments_api_key : Option String
  btcpay_api_key : Option String
  btcpay_url : Option String
deriving Repr, DecidableEq

/-- The fixed TRC20 wallet, the default of the manual path. -/
def usdtTrc20Wallet : String := "TJkLFH53mJUzaTMxLtYqa28jzL9CppJotV"

/-- The module's fixed per-currency wallet table (`self.wallet_addresses`). -/
def wallet_addresses : List (String × String) :=
  [("BTC", "14MxL4x95TRTYJroWe8bWy4wSLq6c4WCr5"),
   ("USDT_TRC20", usdtTrc20Wallet),
   ("USDT_ERC20", "0xdd3a7fd3a23c7bf18a9956ca1a1cc8f35d4fce25")]

/-- Association-list lookup, modelling Python `dict.get`. -/
def lookup (d : List (String × String)) (k : String) : Option String :=
  (d.find? (fun kv => kv.1 == k)).map (·.2)

/-- The invoice dictionary returned by the `_create_*_invoice` helpers. -/
structure Invoice where
  invoice_id : Option String := none
  payment_url : Option String := none
  address : Option String := none
  amount : Option ℚ := none
  currency : Option String := none
  status : String := "pending"
  expires_at : Option String := none
  provider : String
deriving Repr, DecidableEq

/-- Fields of a NowPayments invoice-creation response that the service reads. -/
structure NPCreateResp where
  id : Option String := none
  invoice_url : Option String := none
  pay_address : Option String := none
  pay_amount : Option ℚ := none
  pay_currency : Option String := none
  created_at : Option String := none
deriving Repr, DecidableEq

/-- Fields of a BTCPay invoice-creation response that the service reads;
`addresses` is the per-currency address dict, `cryptoAmount` the first
entry of `cryptoInfo`. -/
structure BtcpayCreateResp where
  id : Option String := none
  url : Option String := none
  addresses : List (String × String) := []
  cryptoAmount : Option ℚ := none
  expirationTime : Option String := none
deriving Repr, DecidableEq

/-- `PaymentService._create_nowpayments_invoice`: the HTTP call's outcome is
the `api` parameter (`.error` = the request raised); the field mapping is the
source's. -/
def create_nowpayments_invoice (api : Except String NPCreateResp) :
    Except String Invoice :=
  api.map fun r =>
    { invoice_id := r.id, payment_url := r.invoice_url, address := r.pay_address,
      amount := r.pay_amount, currency := r.pay_currency, status := "pending",
      expires_at := r.created_at, provider := "nowpayments" }

/-- `PaymentService._create_btcpay_invoice`. -/
def create_btcpay_invoice (api : Except String BtcpayCreateResp) (currency : String) :
    Except String Invoice :=
  api.map fun r =>
    { invoice_id := r.id, payment_url := r.url,
      address := lookup r.addresses currency.toUpper, amount := r.cryptoAmount,
      currency := some currency.toUpper, status := "pending",
      expires_at := r.expirationTime, provider := "btcpay" }

/-- `PaymentService._create_manual_invoice`: picks the configured wallet for
the currency, defaulting to the `USDT_TRC20` wallet when unsupported; builds
the `manual_<uuid8>` invoice id and a 24-hour expiry (the uuid fragment and
the formatted expiry are the `uuid_hex`/`expiry_iso` parameters).  This helper
cannot raise. -/
def create_manual_invoice (amount : ℚ) (currency : String) (uuid_hex : String)
    (expiry_iso : String) : Invoice :=
  let cur := currency.toUpper
  let pick : String × String :=
    match lookup wallet_addresses cur with
    | some a => (a, cur)
    | none => (usdtTrc20Wallet, "USDT_TRC20")
  { invoice_id := some ("manual_" ++ uuid_hex), payment_url := none,
    address := some pick.1, amount := some amount, currency := some pick.2.toUpper,
    status := "pending", expires_at := some expiry_iso, provider := "manual" }

/-- `PaymentService.create_payment_invoice`: inside the `try`, the branch is
chosen by configuration alone (NowPayments key truthy → NowPayments; else
BTCPay key *and* url truthy → BTCPay; else manual); any exception from the
chosen branch falls through the single `except` handler straight to the
manual invoice. -/
def create_payment_invoice (cfg : PaymentConfig)
    (np_api : Except String NPCreateResp) (btcpay_api : Except String BtcpayCreateResp)
    (amount : ℚ) (currency : String) (uuid_hex : String) (expiry_iso : String) :
    Invoice :=
  let attempt : Except String Invoice :=
    if truthy cfg.nowpayments_api_key then
      create_nowpayments_invoice np_api
    else if truthy cfg.btcpay_api_key && truthy cfg.btcpay_url then
      create_btcpay_invoice btcpay_api currency
    else
      .ok (create_manual_invoice amount currency uuid_hex expiry_iso)
  match attempt with
  | .ok inv => inv
  | .error _ => create_manual_invoice amount currency uuid_hex expiry_iso

/-- The status dictionary returned by the `_check_*_status` helpers. -/
structure StatusResult where
  status : String
  amount_paid : Option ℚ := none
  amount_expected : Option ℚ := none
  currency : Option String := none
  transaction_id : Option String := none
  confirmations : Option ℚ := none
  provider : Option String := none
  note : Option String := none
  error : Option String := none
deriving Repr, DecidableEq

/-- The inline NowPayments → canonical status map of
`_check_nowpayments_status`, with the `.get(_, 'unknown')` default. -/
def npStatusMap (s : String) : String :=
  if s = "waiting" then "pending"
  else if s = "confirming" then "confirming"
  else if s = "confirmed" then "confirmed"
  else if s = "sending" then "confirmed"
  else if s = "partially_paid" then "partial"
  else if s = "finished" then "completed"
  else if s = "failed" then "failed"
  else if s = "refunded" then "refunded"
  else if s = "expired" then "expired"
  else "unknown"

/-- The inline BTCPay → canonical status map of `_check_btcpay_status`. -/
def btcpayStatusMap (s : String) : String :=
  if s = "New" then "pending"
  else if s = "Paid" then "confirming"
  else if s = "Confirmed" then "confirmed"
  else if s = "Complete" then "completed"
  else if s = "Expired" then "expired"
  else if s = "Invalid" then "failed"
  else "unknown"

/-- Fields of a NowPayments invoice-status response that the service reads;
`payment_status` defaults to `waiting` when absent. -/
structure NPStatusResp where
  payment_status : Option String := none
  actually_paid : Option ℚ := none
  pay_amount : Option ℚ := none
  pay_currency : Option String := none
  payment_id : Option String := none
  network_fee : Option ℚ := none
deriving Repr, DecidableEq

/-- Fields of a BTCPay invoice-status response that the service reads;
`status` defaults to `New` when absent. -/
structure BtcpayStatusResp where
  status : Option String := none
  price : Option ℚ := none
  currency : Option String := none
  id : Option String := none
deriving Repr, DecidableEq

/-- `PaymentService._check_nowpayments_status` applied to a fetched response. -/
def check_nowpayments_status (r : NPStatusResp) : StatusResult :=
  { status := npStatusMap (r.payment_status.getD "waiting"),
    amount_paid := r.actually_paid, amount_expected := r.pay_amount,
    currency := r.pay_currency, transaction_id := r.payment_id,
    confirmations := r.network_fee, provider := some "nowpayments" }

/-- `PaymentService._check_btcpay_status` applied to a fetched response. -/
def check_btcpay_status (r : BtcpayStatusResp) : StatusResult :=
  { status := btcpayStatusMap (r.status.getD "New"),
    amount_paid := r.price, amount_expected := r.price,
    currency := r.currency, transaction_id := r.id, provider := some "btcpay" }

/-- `PaymentService._check_manual_payment_status`: the source is an explicit
placeholder ("In a real implementation, this would check blockchain
transactions. For now, return pending status") — it ignores the invoice id
and never consults a chain verifier. -/
def check_manual_payment_status (_invoice_id : String) : StatusResult :=
  { status := "pending", amount_paid := some 0, amount_expected := some 0,
    currency := some "USDT", transaction_id := none, provider := some "manual",
    note := some "Manual verification required" }

/-- `PaymentService.check_payment_status`: routes on the stored provider and
the configured credentials; any exception raised by a hosted-provider fetch is
caught and reported as `{'status': 'unknown', 'error': ...}`; everything else
(the manual provider included) lands on the placeholder manual check. -/
def check_payment_status (cfg : PaymentConfig) (invoice_id : String)
    (provider : Option String) (np_api : Except String NPStatusResp)
    (btcpay_api : Except String BtcpayStatusResp) : StatusResult :=
  if provider == some "nowpayments" && truthy cfg.nowpayments_api_key then
    match np_api with
    | .ok r => check_nowpayments_status r
    | .error e => { status := "unknown", error := some e }
  else if provider == some "btcpay" && truthy cfg.btcpay_api_key then
    match btcpay_api with
    | .ok r => check_btcpay_status r
    | .error e => { status := "unknown", error := some e }
  else
    check_manual_payment_status invoice_id

/-! ## Blockchain service (`src/services/blockchain_service.py`)

`_make_request` returns the parsed JSON on HTTP 200 and `None` on any other
status or exception, so each verifier's fetched payload is modelled as an
`Option`; Python float amounts become `ℚ`. -/

/-- The verification dictionary a chain verifier returns; absent keys are
`none`. -/
structure VerifyResult where
  verified : Bool
  transaction_id : Option String := none
  amount : Option ℚ := none
  confirmations : Option Nat := none
  block_height : Option Nat := none
  block_number : Option Nat := none
  reason : Option String := none
  error : Option String := none
deriving Repr, DecidableEq

/-- The `{'verified': False, 'error': 'Failed to fetch transactions'}` value. -/
def fetchFailed : VerifyResult :=
  { verified := false, error := some "Failed to fetch transactions" }

/-- The `{'verified': False, 'reason': 'Payment not found or insufficient
amount'}` value. -/
def notFound : VerifyResult :=
  { verified := false, reason := some "Payment not found or insufficient amount" }

/-- Raw satoshis scaled to BTC, the source's `value / 100000000`. -/
def btcScale (v : Nat) : ℚ := (v : ℚ) / 100000000

/-- Raw ERC20-USDT units scaled to USDT, the source's `value / 1000000`. -/
def ethUsdtScale (v : Nat) : ℚ := (v : ℚ) / 1000000

/-- Raw TRC20-USDT units scaled to USDT, the source's `value / 1000000`. -/
def tronUsdtScale (v : Nat) : ℚ := (v : ℚ) / 1000000

/-- Raw BEP20-USDT units scaled to USDT, the source's
`value / 1000000000000000000`. -/
def bscUsdtScale (v : Nat) : ℚ := (v : ℚ) / 1000000000000000000

/-- One output of a Bitcoin transaction as read from the explorer payload. -/
structure BtcVout where
  scriptpubkey_address : Option String := none
  value : Nat := 0
deriving Repr, DecidableEq

/-- The `status` object of a Bitcoin transaction. -/
structure BtcStatus where
  confirmed : Bool := false
  block_height : Option Nat := none
deriving Repr, DecidableEq

/-- A Bitcoin transaction as read from the explorer payload. -/
structure BtcTx where
  txid : Option String := none
  vout : List BtcVout := []
  status : BtcStatus := {}
deriving Repr, DecidableEq

/-- The inner qualification test of `verify_btc_payment`: an output paying
the watched address whose scaled value reaches the expected amount, inside a
confirmed transaction. -/
def btcVoutQualifies (address : String) (amount : ℚ) (tx : BtcTx) (o : BtcVout) : Bool :=
  o.scriptpubkey_address == some address
    && decide (btcScale o.value ≥ amount) && tx.status.confirmed

/-- The double loop of `verify_btc_payment`: the first transaction (in fetch
order) holding a qualifying output, paired with that output. -/
def btcFindQualifying (txs : List BtcTx) (address : String) (amount : ℚ) :
    Option (BtcTx × BtcVout) :=
  txs.findSome? fun tx =>
    (tx.vout.find? (btcVoutQualifies address amount tx)).map (fun o => (tx, o))

/-- `BlockchainService.verify_btc_payment`: `transactions = none` models a
failed fetch; note the source's `if not transactions:` also treats a
successful *empty* list as a fetch failure. -/
def verify_btc_payment (transactions : Option (List BtcTx)) (address : String)
    (amount : ℚ) : VerifyResult :=
  match transactions with
  | none => fetchFailed
  | some [] => fetchFailed
  | some txs =>
    match btcFindQualifying txs address amount with
    | some (tx, o) =>
      { verified := true, transaction_id := tx.txid, amount := some (btcScale o.value),
        confirmations := some (if tx.status.confirmed then 1 else 0),
        block_height := tx.status.block_height }
    | none => notFound

/-- Python `str.lower()` on the (ASCII) hex addresses, modelled as
per-character lowering. -/
def asciiLower (s : String) : String := String.mk (s.data.map Char.toLower)

/-- An ERC20/BEP20 token transfer as read from the scan API payload. -/
structure EvmTokenTx where
  toAddr : String := ""
  value : Nat := 0
  confirmations : Nat := 0
  hash : Option String := none
  blockNumber : Option Nat := none
deriving Repr, DecidableEq

/-- The qualification test of `verify_eth_usdt_payment`: destination matches
case-insensitively, the scaled value reaches the expected amount, and at
least one confirmation. -/
def ethQualifies (address : String) (amount : ℚ) (tx : EvmTokenTx) : Bool :=
  asciiLower tx.toAddr == asciiLower address
    && decide (ethUsdtScale tx.value ≥ amount) && decide (1 ≤ tx.confirmations)

/-- The scan-API envelope `{status, result}`. -/
structure EvmScanResp where
  status : String := ""
  result : List EvmTokenTx := []
deriving Repr, DecidableEq

/-- `BlockchainService.verify_eth_usdt_payment`: a missing response or a
non-`'1'` status is a fetch failure; otherwise the first qualifying transfer
in the returned (newest-first) order is reported. -/
def verify_eth_usdt_payment (response : Option EvmScanResp) (address : String)
    (amount : ℚ) : VerifyResult :=
  match response with
  | none => fetchFailed
  | some r =>
    if r.status ≠ "1" then fetchFailed
    else
      match r.result.find? (ethQualifies address amount) with
      | some tx =>
        { verified := true, transaction_id := tx.hash,
          amount := some (ethUsdtScale tx.value),
          confirmations := some tx.confirmations, block_number := tx.blockNumber }
      | none => notFound

/-- The qualification test of `verify_bsc_usdt_payment` (identical shape to
the ETH one, with the 18-decimal scaling). -/
def bscQualifies (address : String) (amount : ℚ) (tx : EvmTokenTx) : Bool :=
  asciiLower tx.toAddr == asciiLower address
    && decide (bscUsdtScale tx.value ≥ amount) && decide (1 ≤ tx.confirmations)

/-- `BlockchainService.verify_bsc_usdt_payment`. -/
def verify_bsc_usdt_payment (response : Option EvmScanResp) (address : String)
    (amount : ℚ) : VerifyResult :=
  match response with
  | none => fetchFailed
  | some r =>
    if r.status ≠ "1" then fetchFailed
    else
      match r.result.find? (bscQualifies address amount) with
      | some tx =>
        { verified := true, transaction_id := tx.hash,
          amount := some (bscUsdtScale tx.value),
          confirmations := some tx.confirmations, block_number := tx.blockNumber }
      | none => notFound

/-- A TRC20 transfer as read from the TronGrid payload. -/
structure TronTx where
  toAddr : String := ""
  value : Nat := 0
  transaction_id : Option String := none
  block_number : Option Nat := none
deriving Repr, DecidableEq

/-- The TronGrid envelope `{success, data}`. -/
structure TronResp where
  success : Bool := false
  data : List TronTx := []
deriving Repr, DecidableEq

/-- The raw `gettransactionbyid` payload read by
`_get_tron_transaction_info`; a `blockNumber` key is how the node marks an
included transaction. -/
structure TronRawTxInfo where
  blockNumber : Option Nat := none
  energy_usage_total : Nat := 0
deriving Repr, DecidableEq

/-- The dictionary `_get_tron_transaction_info` builds. -/
structure TronTxInfo where
  confirmed : Bool
  block_number : Option Nat
  energy_used : Nat
deriving Repr, DecidableEq

/-- `BlockchainService._get_tron_transaction_info`: a non-200/raised request
yields the empty dict (`none` here); otherwise `confirmed` records whether a
`blockNumber` was assigned. -/
def get_tron_transaction_info (api : Option TronRawTxInfo) : Option TronTxInfo :=
  match api with
  | none => none
  | some r =>
    some { confirmed := r.blockNumber.isSome, block_number := r.blockNumber,
           energy_used := r.energy_usage_total }

/-- The secondary-lookup confirmation read in `verify_tron_usdt_payment`:
`tx_info.get('confirmed', False) if tx_info else False`.  `chain_lookup`
maps each transaction id to its `gettransactionbyid` payload. -/
def tronConfirmed (chain_lookup : Option String → Option TronRawTxInfo)
    (tid : Option String) : Bool :=
  match get_tron_transaction_info (chain_lookup tid) with
  | some info => info.confirmed
  | none => false

/-- The qualification test of `verify_tron_usdt_payment`: destination matches
(case-sensitively), the scaled value reaches the expected amount, and the
secondary lookup shows the transaction confirmed. -/
def tronQualifies (chain_lookup : Option String → Option TronRawTxInfo)
    (address : String) (amount : ℚ) (tx : TronTx) : Bool :=
  tx.toAddr == address
    && decide (tronUsdtScale tx.value ≥ amount)
    && tronConfirmed chain_lookup tx.transaction_id

/-- `BlockchainService.verify_tron_usdt_payment`: a missing response or
`success = false` is a fetch failure; otherwise the first qualifying transfer
in the returned order is reported. -/
def verify_tron_usdt_payment (response : Option TronResp)
    (chain_lookup : Option String → Option TronRawTxInfo) (address : String)
    (amount : ℚ) : VerifyResult :=
  match response with
  | none => fetchFailed
  | some r =>
    if !r.success then fetchFailed
    else
      match r.data.find? (tronQualifies chain_lookup address amount) with
      | some tx =>
        { verified := true, transaction_id := tx.transaction_id,
          amount := some (tronUsdtScale tx.value),
          confirmations := some (if tronConfirmed chain_lookup tx.transaction_id then 1 else 0),
          block_number := tx.block_number }
      | none => notFound

/-- The four supported verification networks. -/
inductive Network where
  | btc
  | erc20Usdt
  | trc20Usdt
  | bep20Usdt
deriving Repr, DecidableEq

/-- The network's canonical token-decimal exponent as the spec states it
(§4.1): BTC 8, ERC20-USDT 6, TRC20-USDT 6, BEP20-USDT 18. -/
def specDecimals : Network → Nat
  | .btc => 8
  | .erc20Usdt => 6
  | .trc20Usdt => 6
  | .bep20Usdt => 18

/-- The scaling function each verifier actually applies, per network. -/
def networkScale : Network → Nat → ℚ
  | .btc => btcScale
  | .erc20Usdt => ethUsdtScale
  | .trc20Usdt => tronUsdtScale
  | .bep20Usdt => bscUsdtScale

/-! ## Concrete fixtures used by witnesses and counterexamples -/

/-- A freshly created manual payment record. -/
def samplePayment : Payment :=
  { id := "pay-1", user_id := 7, provider := "manual", amount := 50,
    currency := "USDT", status := "pending", transaction_id := none,
    payment_data := [], created_at := 0, updated_at := 0 }

/-- A configuration with both hosted providers configured. -/
def cfgBoth : PaymentConfig :=
  { nowpayments_api_key := some "np-key", btcpay_api_key := some "btcpay-key",
    btcpay_url := some "https://btcpay.example" }

/-- A configuration with only NowPayments configured. -/
def cfgNpOnly : PaymentConfig :=
  { nowpayments_api_key := some "np-key", btcpay_api_key := none, btcpay_url := none }

/-- An ERC20-USDT transfer of 1 USDT (raw 1000000), still unconfirmed. -/
def ethTxLow : EvmTokenTx :=
  { toAddr := "0xAB", value := 1000000, confirmations := 0, hash := some "h1",
    blockNumber := none }

/-- An ERC20-USDT transfer of 50 USDT (raw 50000000) with 3 confirmations. -/
def ethTxGood : EvmTokenTx :=
  { toAddr := "0xAB", value := 50000000, confirmations := 3, hash := some "h2",
    blockNumber := some 19000000 }

/-- A BEP20-USDT transfer of 50 USDT (raw 50 * 10^18) with 2 confirmations. -/
def bscTxGood : EvmTokenTx :=
  { toAddr := "0xAB", value := 50000000000000000000, confirmations := 2,
    hash := some "h3", blockNumber := some 40000000 }

/-- A TRC20-USDT transfer of 50 USDT (raw 50000000). -/
def tronTxGood : TronTx :=
  { toAddr := "TAddr1", value := 50000000, transaction_id := some "t2",
    block_number := some 12345 }

/-- A secondary-lookup oracle: transaction `t2` is included in a block,
every other lookup fails. -/
def sampleTronLookup : Option String → Option TronRawTxInfo
  | some "t2" => some { blockNumber := some 12345, energy_usage_total := 0 }
  | _ => none

/-- A confirmed Bitcoin transaction paying 0.005 BTC (500000 satoshi) to
`1BtcAddr`. -/
def btcTxLow : BtcTx :=
  { txid := some "btx1",
    vout := [{ scriptpubkey_address := some "1BtcAddr", value := 500000 }],
    status := { confirmed := true, block_height := some 800000 } }

/-- A confirmed Bitcoin transaction paying 0.02 BTC (2000000 satoshi) to
`1BtcAddr`. -/
def btcTxGood : BtcTx :=
  { txid := some "btx2",
    vout := [{ scriptpubkey_address := some "1BtcAddr", value := 2000000 }],
    status := { confirmed := true, block_height := some 800001 } }

/-! ## Helper lemmas -/

/-- After `update_status`, the stored transaction id is either untouched or
equal to a truthy (hence non-null) argument. -/
theorem update_status_txid_cases (p : Payment) (s : String) (tid : Option String)
    (now : Nat) :
    (p.update_status s tid now).1.transaction_id = p.transaction_id
    ∨ ((p.update_status s tid now).1.transaction_id = tid ∧ truthy tid = true) := by
  unfold Payment.update_status
  by_cases hs : s ∈ validStatuses
  · by_cases ht : truthy tid = true
    · right
      simp [hs, ht]
    · left
      simp [hs, ht]
  · left
    simp [hs]

/-- A truthy optional string is non-null. -/
theorem truthy_ne_none (tid : Option String) (h : truthy tid = true) : tid ≠ none := by
  cases tid with
  | none => simp [truthy] at h
  | some t => simp

/-- Evaluating `verify_eth_usdt_payment` on a successful (`status = "1"`)
response reduces to the first-qualifying search. -/
theorem verify_eth_ok_eval (txs : List EvmTokenTx) (address : String) (amount : ℚ) :
    verify_eth_usdt_payment (some { status := "1", result := txs }) address amount
      = match txs.find? (ethQualifies address amount) with
        | some tx =>
          { verified := true, transaction_id := tx.hash,
            amount := some (ethUsdtScale tx.value),
            confirmations := some tx.confirmations, block_number := tx.blockNumber }
        | none => notFound := by
  unfold verify_eth_usdt_payment
  simp

/-- Evaluating `verify_tron_usdt_payment` on a successful response reduces to
the first-qualifying search. -/
theorem verify_tron_ok_eval (tdata : List TronTx)
    (chain_lookup : Option String → Option TronRawTxInfo) (address : String)
    (amount : ℚ) :
    verify_tron_usdt_payment (some { success := true, data := tdata }) chain_lookup
        address amount
      = match tdata.find? (tronQualifies chain_lookup address amount) with
        | some tx =>
          { verified := true, transaction_id := tx.transaction_id,
            amount := some (tronUsdtScale tx.value),
            confirmations :=
              some (if tronConfirmed chain_lookup tx.transaction_id then 1 else 0),
            block_number := tx.block_number }
        | none => notFound := by
  unfold verify_tron_usdt_payment
  simp

/-- Evaluating `verify_bsc_usdt_payment` on a successful (`status = "1"`)
response reduces to the first-qualifying search. -/
theorem verify_bsc_ok_eval (txs : List EvmTokenTx) (address : String) (amount : ℚ) :
    verify_bsc_usdt_payment (some { status := "1", result := txs }) address amount
      = match txs.find? (bscQualifies address amount) with
        | some tx =>
          { verified := true, transaction_id := tx.hash,
            amount := some (bscUsdtScale tx.value),
            confirmations := some tx.confirmations, block_number := tx.blockNumber }
        | none => notFound := by
  unfold verify_bsc_usdt_payment
  simp

/-- Evaluating `verify_btc_payment` on a successful non-empty transaction
list reduces to the first-qualifying search. -/
theorem verify_btc_cons_eval (tx0 : BtcTx) (rest : List BtcTx) (address : String)
    (amount : ℚ) :
    verify_btc_payment (some (tx0 :: rest)) address amount
      = match btcFindQualifying (tx0 :: rest) address amount with
        | some (tx, o) =>
          { verified := true, transaction_id := tx.txid,
            amount := some (btcScale o.value),
            confirmations := some (if tx.status.confirmed then 1 else 0),
            block_height := tx.status.block_height }
        | none => notFound := rfl

/-- A successful `btcFindQualifying` yields a member output of a member
transaction that passes the qualification test. -/
theorem btcFindQualifying_some (txs : List BtcTx) (address : String) (amount : ℚ)
    (tx : BtcTx) (o : BtcVout)
    (h : btcFindQualifying txs address amount = some (tx, o)) :
    tx ∈ txs ∧ o ∈ tx.vout ∧ btcVoutQualifies address amount tx o = true := by
  unfold btcFindQualifying at h
  rcases List.findSome?_eq_some_iff.mp h with ⟨l1, a, l2, heq, hfa, -⟩
  rcases Option.map_eq_some'.mp hfa with ⟨o1, hfind, hpair⟩
  have ha : a = tx := congrArg Prod.fst hpair
  have ho : o1 = o := congrArg Prod.snd hpair
  subst ha
  subst ho
  refine ⟨?_, List.mem_of_find?_eq_some hfind, List.find?_some hfind⟩
  rw [heq]
  simp

/-- A successful `btcFindQualifying` is the source's double loop resolved:
the hit transaction is the first holding a qualifying output (every earlier
transaction has none), and the hit output is the first qualifying output of
that transaction. -/
theorem btcFindQualifying_first (txs : List BtcTx) (address : String) (amount : ℚ)
    (tx : BtcTx) (o : BtcVout)
    (h : btcFindQualifying txs address amount = some (tx, o)) :
    ∃ pre post, txs = pre ++ tx :: post
      ∧ (∀ t ∈ pre, ∀ o1 ∈ t.vout, btcVoutQualifies address amount t o1 = false)
      ∧ ∃ opre opost, tx.vout = opre ++ o :: opost
        ∧ btcVoutQualifies address amount tx o = true
        ∧ ∀ o1 ∈ opre, btcVoutQualifies address amount tx o1 = false := by
  unfold btcFindQualifying at h
  rcases List.findSome?_eq_some_iff.mp h with ⟨l1, a, l2, heq, hfa, hprev⟩
  rcases Option.map_eq_some'.mp hfa with ⟨o1, hfind, hpair⟩
  have ha : a = tx := congrArg Prod.fst hpair
  have ho : o1 = o := congrArg Prod.snd hpair
  subst ha
  subst ho
  rcases List.find?_eq_some.mp hfind with ⟨hq, opre, opost, hveq, hallo⟩
  refine ⟨l1, l2, heq, ?_, opre, opost, hveq, hq, ?_⟩
  · intro t ht o2 ho2
    have hf : (t.vout.find? (btcVoutQualifies address amount t)).map (fun o3 => (t, o3))
        = none := hprev t ht
    rw [Option.map_eq_none'] at hf
    simpa using List.find?_eq_none.mp hf o2 ho2
  · intro o2 ho2
    simpa using hallo o2 ho2

/-- When some output of some fetched transaction qualifies, the double loop
does not come back empty. -/
theorem btcFindQualifying_isSome (txs : List BtcTx) (address : String) (amount : ℚ)
    (tx : BtcTx) (o : BtcVout) (htx : tx ∈ txs) (ho : o ∈ tx.vout)
    (hq : btcVoutQualifies address amount tx o = true) :
    btcFindQualifying txs address amount ≠ none := by
  intro hnone
  unfold btcFindQualifying at hnone
  rw [List.findSome?_eq_none_iff] at hnone
  have hf : (tx.vout.find? (btcVoutQualifies address amount tx)).map (fun o3 => (tx, o3))
      = none := hnone tx htx
  rw [Option.map_eq_none'] at hf
  have := List.find?_eq_none.mp hf o ho
  simp [hq] at this

/-! ## Claims -/

/-- Claim C10 (confirmed): `update_status(s)` succeeds — returns `True` and
writes `s` — exactly when `s` is one of `pending`, `completed`, `failed`,
`cancelled`; any other string returns `False` and leaves the whole record
(status, transaction id, `updated_at`) unchanged, so a record whose status
lies in that four-element set keeps its status in it across every call. -/
theorem C10_update_status_whitelist (p : Payment) (s : String)
    (tid : Option String) (now : Nat) :
    ((p.update_status s tid now).2 = true ↔ s ∈ validStatuses)
    ∧ (s ∈ validStatuses → (p.update_status s tid now).1.status = s)
    ∧ (s ∉ validStatuses → (p.update_status s tid now).1 = p)
    ∧ (p.status ∈ validStatuses → (p.update_status s tid now).1.status ∈ validStatuses) := by
  refine ⟨?_, ?_, ?_, ?_⟩
  · unfold Payment.update_status
    by_cases h : s ∈ validStatuses <;> simp [h]
  · intro h
    unfold Payment.update_status
    by_cases ht : truthy tid = true <;> simp [h, ht]
  · intro hn
    unfold Payment.update_status
    simp [hn]
  · intro hp
    unfold Payment.update_status
    by_cases h : s ∈ validStatuses
    · by_cases ht : truthy tid = true <;> simp [h, ht]
    · simpa [h] using hp

/-- Witness for C10: at a concrete record, the canonical status `confirmed`
is outside the whitelist and the record is left unchanged. -/
theorem C10_witness :
    ("confirmed" ∉ validStatuses)
    ∧ (samplePayment.update_status "confirmed" none 1).1 = samplePayment := by
  have h : "confirmed" ∉ validStatuses := by decide
  exact ⟨h, (C10_update_status_whitelist samplePayment "confirmed" none 1).2.2.1 h⟩

/-- Counterexample to claim C1: a `completed` (terminal) record put through
the sync path with simulated provider result `pending` — one of the three
statuses `sync_payment` draws — comes out `pending`, a non-terminal status,
so a terminal-to-non-terminal transition is applied. -/
theorem C1_counterexample :
    isTerminal ({ samplePayment with status := "completed" } : Payment).status = true
    ∧ (sync_payment { samplePayment with status := "completed" } "pending" 5).status
        = "pending"
    ∧ isTerminal "pending" = false := by
  refine ⟨by decide, by decide, by decide⟩

/-- Claim C1 as amended: terminal statuses are not protected — for a record
in a terminal status, `update_status` (and the sync route, which applies it
to the simulated provider result without consulting the current status)
moves the record to the non-terminal `pending`; the only guard is the
four-status whitelist, so a status outside it leaves the record unchanged. -/
theorem C1_amended_no_terminal_guard (p : Payment) (s : String)
    (tid : Option String) (now : Nat) (_h : isTerminal p.status = true) :
    ((p.update_status s tid now).1.status ≠ p.status → s ∈ validStatuses)
    ∧ (p.update_status "pending" none now).1.status = "pending"
    ∧ (sync_payment p "pending" now).status = "pending"
    ∧ (s ∉ validStatuses → (p.update_status s tid now).1 = p) := by
  refine ⟨?_, ?_, ?_, ?_⟩
  · intro hne
    by_contra hs
    exact hne (by rw [(C10_update_status_whitelist p s tid now).2.2.1 hs])
  · unfold Payment.update_status
    by_cases ht : truthy (none : Option String) = true <;> simp [ht, validStatuses]
  · unfold sync_payment Payment.set_payment_data Payment.update_status
    simp [validStatuses, truthy]
  · exact (C10_update_status_whitelist p s tid now).2.2.1

/-- Witness for the amended C1: a terminal `failed` record synced with
result `pending` really lands on `pending`. -/
theorem C1_amended_witness :
    (sync_payment { samplePayment with status := "failed" } "pending" 5).status
      = "pending" :=
  (C1_amended_no_terminal_guard { samplePayment with status := "failed" } "expired"
      none 5 (by decide)).2.2.1

/-- Counterexample to claim C3: marking a pending record completed with no
transaction id is *accepted* — the call returns `True` and the status
becomes `completed` (with the transaction id still null), where the claim
requires rejection with the status left in its prior state. -/
theorem C3_counterexample :
    samplePayment.mark_completed none 3
      = ({ samplePayment with status := "completed", updated_at := 3 }, true) := by
  decide

/-- Claim C3 as amended: a transition into `completed` carrying no
transaction id is accepted by `update_status` — it reports success, writes
`completed` and leaves the stored transaction id unchanged; a transition
into `confirmed`, by contrast, is always rejected with the record unchanged,
because `confirmed` is not in the status whitelist at all. -/
theorem C3_amended_completed_accepted (p : Payment) (now : Nat) :
    p.mark_completed none now
      = ({ p with status := "completed", updated_at := now }, true)
    ∧ ∀ tid, p.update_status "confirmed" tid now = (p, false) := by
  constructor
  · unfold Payment.mark_completed Payment.update_status
    simp [validStatuses, truthy]
  · intro tid
    unfold Payment.update_status
    simp [validStatuses]

/-- Counterexample to claim C4: a record whose transaction id is already
`tx1` has it reassigned to `tx2` by a later status update. -/
theorem C4_counterexample :
    (({ samplePayment with transaction_id := some "tx1" } : Payment).update_status
        "completed" (some "tx2") 4).1.transaction_id = some "tx2" := by
  decide

/-- Claim C4 as amended: a non-null transaction id is never *cleared* — every
status-update, sync, force-confirm, fail and cancel operation leaves it
non-null (an update only writes a truthy id) — but it *can* be reassigned to
a different non-null value by a later update that carries one. -/
theorem C4_amended_txid_never_cleared (p : Payment) (v : String) (s : String)
    (tid req reason : Option String) (actor : Int) (now : Nat)
    (h : p.transaction_id = some v) :
    (p.update_status s tid now).1.transaction_id ≠ none
    ∧ (sync_payment p s now).transaction_id ≠ none
    ∧ (force_confirm_payment p req actor now).1.transaction_id ≠ none
    ∧ (p.mark_failed reason now).1.transaction_id ≠ none
    ∧ (p.cancel reason now).1.transaction_id ≠ none := by
  have base : ∀ (q : Payment) (s1 : String) (t1 : Option String),
      q.transaction_id ≠ none → (q.update_status s1 t1 now).1.transaction_id ≠ none := by
    intro q s1 t1 hq
    rcases update_status_txid_cases q s1 t1 now with hc | ⟨hc, ht⟩
    · rw [hc]; exact hq
    · rw [hc]; exact truthy_ne_none t1 ht
  have hp : p.transaction_id ≠ none := by rw [h]; exact Option.some_ne_none v
  refine ⟨base p s tid hp, ?_, ?_, ?_, ?_⟩
  · unfold sync_payment Payment.set_payment_data
    exact base p s none hp
  · unfold force_confirm_payment
    by_cases hc : p.status = "completed"
    · simp [hc, hp]
    · simp only [hc, if_false, Payment.set_payment_data]
      exact base p "completed" (some (req.getD ("ADMIN_OVERRIDE_" ++ toString now))) hp
  · unfold Payment.mark_failed
    cases reason with
    | none => exact base p "failed" none hp
    | some r =>
      have hq : (p.set_payment_data (upsert p.payment_data "failure_reason" r)).transaction_id
          ≠ none := hp
      exact base _ "failed" none hq
  · unfold Payment.cancel
    cases reason with
    | none => exact base p "cancelled" none hp
    | some r =>
      have hq : (p.set_payment_data (upsert p.payment_data "cancellation_reason" r)).transaction_id
          ≠ none := hp
      exact base _ "cancelled" none hq

/-- Witness for the amended C4: a concrete record with transaction id `tx1`
keeps a non-null id through a completed-update carrying no id. -/
theorem C4_amended_witness :
    (({ samplePayment with transaction_id := some "tx1" } : Payment).update_status
        "completed" none 4).1.transaction_id ≠ none :=
  (C4_amended_txid_never_cleared { samplePayment with transaction_id := some "tx1" }
      "tx1" "completed" none none none 0 4 rfl).1

/-- Counterexample to claim C2: with *both* NowPayments and BTCPay
configured, a NowPayments invoice-creation call that raises makes the
orchestrator fall back directly to the manual provider — not to BTCPay, as
the claim requires. -/
theorem C2_counterexample :
    truthy cfgBoth.nowpayments_api_key = true
    ∧ truthy cfgBoth.btcpay_api_key = true
    ∧ truthy cfgBoth.btcpay_url = true
    ∧ (create_payment_invoice cfgBoth (.error "API error: 500")
        (.ok ({} : BtcpayCreateResp)) 50 "BTC" "ab12cd34"
        "2026-01-02T00:00:00").provider = "manual" := by
  refine ⟨by decide, by decide, by decide, by decide⟩

/-- Claim C2 as amended: the branch is chosen by configuration alone — a
truthy NowPayments key selects NowPayments, else a truthy BTCPay key *and*
url select BTCPay, else manual; but when the selected hosted call throws,
the single exception handler falls back directly to the manual invoice,
regardless of whether BTCPay is configured. -/
theorem C2_amended_fallback_is_manual (cfg : PaymentConfig)
    (np_api : Except String NPCreateResp) (btcpay_api : Except String BtcpayCreateResp)
    (amount : ℚ) (currency uuid_hex expiry_iso : String) :
    (truthy cfg.nowpayments_api_key = true →
      (∀ r, np_api = .ok r →
        create_payment_invoice cfg np_api btcpay_api amount currency uuid_hex expiry_iso
          = { invoice_id := r.id, payment_url := r.invoice_url, address := r.pay_address,
              amount := r.pay_amount, currency := r.pay_currency, status := "pending",
              expires_at := r.created_at, provider := "nowpayments" })
      ∧ (∀ e, np_api = .error e →
        create_payment_invoice cfg np_api btcpay_api amount currency uuid_hex expiry_iso
          = create_manual_invoice amount currency uuid_hex expiry_iso))
    ∧ (truthy cfg.nowpayments_api_key = false →
        (truthy cfg.btcpay_api_key && truthy cfg.btcpay_url) = true →
      (∀ r, btcpay_api = .ok r →
        (create_payment_invoice cfg np_api btcpay_api amount currency uuid_hex
          expiry_iso).provider = "btcpay")
      ∧ (∀ e, btcpay_api = .error e →
        create_payment_invoice cfg np_api btcpay_api amount currency uuid_hex expiry_iso
          = create_manual_invoice amount currency uuid_hex expiry_iso))
    ∧ (truthy cfg.nowpayments_api_key = false →
        (truthy cfg.btcpay_api_key && truthy cfg.btcpay_url) = false →
      create_payment_invoice cfg np_api btcpay_api amount currency uuid_hex expiry_iso
        = create_manual_invoice amount currency uuid_hex expiry_iso) := by
  refine ⟨fun hnp => ⟨?_, ?_⟩, fun hnp hbt => ⟨?_, ?_⟩, fun hnp hbt => ?_⟩
  · intro r hr
    unfold create_payment_invoice create_nowpayments_invoice
    simp [hnp, hr, Except.map]
  · intro e he
    unfold create_payment_invoice create_nowpayments_invoice
    simp [hnp, he, Except.map]
  · intro r hr
    unfold create_payment_invoice create_btcpay_invoice
    simp [hnp, hbt, hr, Except.map]
  · intro e he
    unfold create_payment_invoice create_btcpay_invoice
    simp [hnp, hbt, he, Except.map]
  · unfold create_payment_invoice
    simp [hnp, hbt]

/-- Witness for the amended C2: with only NowPayments configured and a
successful call, the issued invoice is a NowPayments one. -/
theorem C2_amended_witness :
    create_payment_invoice cfgNpOnly (.ok ({} : NPCreateResp))
        (.ok ({} : BtcpayCreateResp)) 50 "BTC" "ab12cd34" "2026-01-02T00:00:00"
      = { invoice_id := none, payment_url := none, address := none, amount := none,
          currency := none, status := "pending", expires_at := none,
          provider := "nowpayments" } :=
  ((C2_amended_fallback_is_manual cfgNpOnly (.ok {}) (.ok {}) 50 "BTC" "ab12cd34"
      "2026-01-02T00:00:00").1 (by decide)).1 {} rfl

/-- Claim C5 (the code is a placeholder here): for every invoice id, the
manual status check returns the fixed `pending` dictionary with no
transaction id — it never consults a chain verifier — and the status-check
router sends the manual provider to exactly this placeholder. -/
theorem C5_manual_check_is_placeholder (invoice_id : String) (cfg : PaymentConfig)
    (np_api : Except String NPStatusResp) (btcpay_api : Except String BtcpayStatusResp) :
    check_manual_payment_status invoice_id
      = { status := "pending", amount_paid := some 0, amount_expected := some 0,
          currency := some "USDT", transaction_id := none, provider := some "manual",
          note := some "Manual verification required" }
    ∧ check_payment_status cfg invoice_id (some "manual") np_api btcpay_api
        = check_manual_payment_status invoice_id := by
  constructor
  · rfl
  · rfl

/-- Claim C6 (confirmed): each chain verifier scales the raw integer amount
by dividing by `10 ^ d` with the per-network exponent of the spec table —
BTC 8, ERC20-USDT 6, TRC20-USDT 6, BEP20-USDT 18. -/
theorem C6_decimal_exponents (net : Network) (v : Nat) :
    networkScale net v = (v : ℚ) / 10 ^ specDecimals net := by
  cases net <;>
    simp [networkScale, specDecimals, btcScale, ethUsdtScale, tronUsdtScale, bscUsdtScale] <;>
    norm_num

/-- Claim C7 (confirmed): on a successful fetch, every chain verifier
reports `verified` only for a transfer whose destination equals the watched
address (case-insensitively for the hex chains, exactly for TRON), whose
scaled amount reaches the expected amount, and whose chain confirmation
predicate holds (BTC: the containing transaction is marked confirmed;
ETH/BSC: at least one confirmation; TRON: the secondary lookup of the
transaction id shows an assigned block number); the reported transfer is the
*first* qualifying one in the fetched order (for BTC, the first qualifying
output of the first transaction holding one), its single value is the
reported amount (no aggregation of sub-threshold transfers), and whenever a
qualifying transfer exists one is reported. -/
theorem C7_first_qualifying_transfer (txs bscTxs : List EvmTokenTx)
    (tdata : List TronTx) (btx0 : BtcTx) (brest : List BtcTx)
    (chain_lookup : Option String → Option TronRawTxInfo) (address : String)
    (amount : ℚ) :
    ((verify_eth_usdt_payment (some { status := "1", result := txs }) address
        amount).verified = true →
      ∃ pre tx post, txs = pre ++ tx :: post
        ∧ ethQualifies address amount tx = true
        ∧ (∀ t ∈ pre, ethQualifies address amount t = false)
        ∧ (verify_eth_usdt_payment (some { status := "1", result := txs }) address
            amount).transaction_id = tx.hash
        ∧ (verify_eth_usdt_payment (some { status := "1", result := txs }) address
            amount).amount = some (ethUsdtScale tx.value)
        ∧ asciiLower tx.toAddr = asciiLower address
        ∧ amount ≤ ethUsdtScale tx.value
        ∧ 1 ≤ tx.confirmations)
    ∧ ((∃ tx ∈ txs, ethQualifies address amount tx = true) →
        (verify_eth_usdt_payment (some { status := "1", result := txs }) address
          amount).verified = true)
    ∧ ((verify_bsc_usdt_payment (some { status := "1", result := bscTxs }) address
        amount).verified = true →
      ∃ pre tx post, bscTxs = pre ++ tx :: post
        ∧ bscQualifies address amount tx = true
        ∧ (∀ t ∈ pre, bscQualifies address amount t = false)
        ∧ (verify_bsc_usdt_payment (some { status := "1", result := bscTxs }) address
            amount).transaction_id = tx.hash
        ∧ (verify_bsc_usdt_payment (some { status := "1", result := bscTxs }) address
            amount).amount = some (bscUsdtScale tx.value)
        ∧ asciiLower tx.toAddr = asciiLower address
        ∧ amount ≤ bscUsdtScale tx.value
        ∧ 1 ≤ tx.confirmations)
    ∧ ((∃ tx ∈ bscTxs, bscQualifies address amount tx = true) →
        (verify_bsc_usdt_payment (some { status := "1", result := bscTxs }) address
          amount).verified = true)
    ∧ ((verify_tron_usdt_payment (some { success := true, data := tdata })
        chain_lookup address amount).verified = true →
      ∃ pre tx post, tdata = pre ++ tx :: post
        ∧ tronQualifies chain_lookup address amount tx = true
        ∧ (∀ t ∈ pre, tronQualifies chain_lookup address amount t = false)
        ∧ (verify_tron_usdt_payment (some { success := true, data := tdata })
            chain_lookup address amount).transaction_id = tx.transaction_id
        ∧ (verify_tron_usdt_payment (some { success := true, data := tdata })
            chain_lookup address amount).amount = some (tronUsdtScale tx.value)
        ∧ tx.toAddr = address
        ∧ amount ≤ tronUsdtScale tx.value
        ∧ tronConfirmed chain_lookup tx.transaction_id = true)
    ∧ ((∃ tx ∈ tdata, tronQualifies chain_lookup address amount tx = true) →
        (verify_tron_usdt_payment (some { success := true, data := tdata })
          chain_lookup address amount).verified = true)
    ∧ ((verify_btc_payment (some (btx0 :: brest)) address amount).verified = true →
      ∃ pre tx post, btx0 :: brest = pre ++ tx :: post
        ∧ (∀ t ∈ pre, ∀ o1 ∈ t.vout, btcVoutQualifies address amount t o1 = false)
        ∧ ∃ opre o opost, tx.vout = opre ++ o :: opost
          ∧ btcVoutQualifies address amount tx o = true
          ∧ (∀ o1 ∈ opre, btcVoutQualifies address amount tx o1 = false)
          ∧ (verify_btc_payment (some (btx0 :: brest)) address
              amount).transaction_id = tx.txid
          ∧ (verify_btc_payment (some (btx0 :: brest)) address
              amount).amount = some (btcScale o.value)
          ∧ o.scriptpubkey_address = some address
          ∧ amount ≤ btcScale o.value
          ∧ tx.status.confirmed = true)
    ∧ ((∃ tx ∈ btx0 :: brest, ∃ o ∈ tx.vout,
          btcVoutQualifies address amount tx o = true) →
        (verify_btc_payment (some (btx0 :: brest)) address amount).verified
          = true) := by
  refine ⟨?_, ?_, ?_, ?_, ?_, ?_, ?_, ?_⟩
  · intro hv
    rw [verify_eth_ok_eval] at hv
    rcases hfind : txs.find? (ethQualifies address amount) with _ | tx
    · rw [hfind] at hv
      simp [notFound] at hv
    · rcases List.find?_eq_some.mp hfind with ⟨hq, pre, post, heq, hall⟩
      refine ⟨pre, tx, post, heq, hq, ?_, ?_, ?_, ?_⟩
      · intro t ht
        simpa using hall t ht
      · rw [verify_eth_ok_eval, hfind]
      · rw [verify_eth_ok_eval, hfind]
      · simpa [ethQualifies, and_assoc, ge_iff_le] using hq
  · rintro ⟨tx, htx, hq⟩
    rw [verify_eth_ok_eval]
    rcases hfind : txs.find? (ethQualifies address amount) with _ | tx1
    · rw [List.find?_eq_none] at hfind
      exact absurd hq (by simpa using hfind tx htx)
    · rfl
  · intro hv
    rw [verify_bsc_ok_eval] at hv
    rcases hfind : bscTxs.find? (bscQualifies address amount) with _ | tx
    · rw [hfind] at hv
      simp [notFound] at hv
    · rcases List.find?_eq_some.mp hfind with ⟨hq, pre, post, heq, hall⟩
      refine ⟨pre, tx, post, heq, hq, ?_, ?_, ?_, ?_⟩
      · intro t ht
        simpa using hall t ht
      · rw [verify_bsc_ok_eval, hfind]
      · rw [verify_bsc_ok_eval, hfind]
      · simpa [bscQualifies, and_assoc, ge_iff_le] using hq
  · rintro ⟨tx, htx, hq⟩
    rw [verify_bsc_ok_eval]
    rcases hfind : bscTxs.find? (bscQualifies address amount) with _ | tx1
    · rw [List.find?_eq_none] at hfind
      exact absurd hq (by simpa using hfind tx htx)
    · rfl
  · intro hv
    rw [verify_tron_ok_eval] at hv
    rcases hfind : tdata.find? (tronQualifies chain_lookup address amount) with _ | tx
    · rw [hfind] at hv
      simp [notFound] at hv
    · rcases List.find?_eq_some.mp hfind with ⟨hq, pre, post, heq, hall⟩
      refine ⟨pre, tx, post, heq, hq, ?_, ?_, ?_, ?_⟩
      · intro t ht
        simpa using hall t ht
      · rw [verify_tron_ok_eval, hfind]
      · rw [verify_tron_ok_eval, hfind]
      · simpa [tronQualifies, and_assoc, ge_iff_le] using hq
  · rintro ⟨tx, htx, hq⟩
    rw [verify_tron_ok_eval]
    rcases hfind : tdata.find? (tronQualifies chain_lookup address amount) with _ | tx1
    · rw [List.find?_eq_none] at hfind
      exact absurd hq (by simpa using hfind tx htx)
    · rfl
  · intro hv
    rw [verify_btc_cons_eval] at hv
    rcases hfind : btcFindQualifying (btx0 :: brest) address amount with _ | ⟨tx, o⟩
    · rw [hfind] at hv
      simp [notFound] at hv
    · rcases btcFindQualifying_first _ _ _ _ _ hfind with
        ⟨pre, post, heq, hpre, opre, opost, hveq, hq, hopre⟩
      refine ⟨pre, tx, post, heq, hpre, opre, o, opost, hveq, hq, hopre, ?_, ?_, ?_⟩
      · rw [verify_btc_cons_eval, hfind]
      · rw [verify_btc_cons_eval, hfind]
      · simpa [btcVoutQualifies, and_assoc, ge_iff_le] using hq
  · rintro ⟨tx, htx, o, ho, hq⟩
    rw [verify_btc_cons_eval]
    rcases hfind : btcFindQualifying (btx0 :: brest) address amount with _ | ⟨tx1, o1⟩
    · exact absurd hfind (btcFindQualifying_isSome _ _ _ _ _ htx ho hq)
    · rfl

/-- Witness for C7: a 50-USDT expectation verifies against a fetched list
holding a 1-USDT unconfirmed transfer and a 50-USDT confirmed one on the ETH
path, against a confirmed 50-USDT BEP20 transfer on the BSC path, against a
confirmed 50-USDT TRC20 transfer (secondary lookup assigning a block) on the
TRON path, and a 0.01-BTC expectation verifies against a confirmed 0.02-BTC
output on the BTC path. -/
theorem C7_witness :
    (verify_eth_usdt_payment (some { status := "1", result := [ethTxLow, ethTxGood] })
        "0xab" 50).verified = true
    ∧ (verify_bsc_usdt_payment (some { status := "1", result := [bscTxGood] })
        "0xab" 50).verified = true
    ∧ (verify_tron_usdt_payment (some { success := true, data := [tronTxGood] })
        sampleTronLookup "TAddr1" 50).verified = true
    ∧ (verify_btc_payment (some [btcTxGood]) "1BtcAddr" ((1 : ℚ)/100)).verified
        = true := by
  have ha : (asciiLower "0xAB" == asciiLower "0xab") = true := by decide
  have heth : ethQualifies "0xab" 50 ethTxGood = true := by
    simp only [ethQualifies, ethTxGood, Bool.and_eq_true, decide_eq_true_eq]
    exact ⟨⟨ha, by norm_num [ethUsdtScale]⟩, by norm_num⟩
  have hbsc : bscQualifies "0xab" 50 bscTxGood = true := by
    simp only [bscQualifies, bscTxGood, Bool.and_eq_true, decide_eq_true_eq]
    exact ⟨⟨ha, by norm_num [bscUsdtScale]⟩, by norm_num⟩
  have htron : tronQualifies sampleTronLookup "TAddr1" 50 tronTxGood = true := by
    simp only [tronQualifies, tronTxGood, Bool.and_eq_true, decide_eq_true_eq]
    exact ⟨⟨by decide, by norm_num [tronUsdtScale]⟩, by decide⟩
  have hbtc : btcVoutQualifies "1BtcAddr" ((1 : ℚ)/100) btcTxGood
      { scriptpubkey_address := some "1BtcAddr", value := 2000000 } = true := by
    norm_num [btcVoutQualifies, btcScale, btcTxGood]
  refine ⟨?_, ?_, ?_, ?_⟩
  · exact (C7_first_qualifying_transfer [ethTxLow, ethTxGood] [] [] btcTxGood []
      sampleTronLookup "0xab" 50).2.1 ⟨ethTxGood, by simp, heth⟩
  · exact (C7_first_qualifying_transfer [] [bscTxGood] [] btcTxGood []
      sampleTronLookup "0xab" 50).2.2.2.1 ⟨bscTxGood, by simp, hbsc⟩
  · exact (C7_first_qualifying_transfer [] [] [tronTxGood] btcTxGood []
      sampleTronLookup "TAddr1" 50).2.2.2.2.2.1 ⟨tronTxGood, by simp, htron⟩
  · exact (C7_first_qualifying_transfer [] [] [] btcTxGood []
      sampleTronLookup "1BtcAddr" ((1 : ℚ)/100)).2.2.2.2.2.2.2
      ⟨btcTxGood, by simp, { scriptpubkey_address := some "1BtcAddr", value := 2000000 },
        by simp [btcTxGood], hbtc⟩

/-- Counterexample to claim C8: a *successful* upstream response that is an
empty transaction list — hence containing no qualifying transfer — is
reported with the `error` field of a fetch failure and no `reason` field,
not with the not-found reason the claim requires for successful responses. -/
theorem C8_counterexample :
    (verify_btc_payment (some []) "1BtcAddr" 1).verified = false
    ∧ (verify_btc_payment (some []) "1BtcAddr" 1).reason = none
    ∧ (verify_btc_payment (some []) "1BtcAddr" 1).error
        = some "Failed to fetch transactions" := by
  refine ⟨rfl, rfl, rfl⟩

/-- Claim C8 as amended: for every verifier, a failed or malformed fetch
(missing response; scan status other than `"1"` for ETH/BSC; `success =
false` for TRON) yields the unverified `error` result; a successful response
with no qualifying transfer yields the unverified not-found result for the
ETH, BSC and TRON verifiers (their empty transfer lists included) and for
the BTC verifier on a non-empty transaction list, while a successful but
*empty* BTC transaction list is conflated with a fetch failure by the
falsy-list test; and the BTC verifier never reports `verified = true`
without a qualifying member transfer. -/
theorem C8_amended_failure_semantics (txs : List BtcTx) (resp : Option (List BtcTx))
    (etxs bscTxs : List EvmTokenTx) (er br : EvmScanResp) (tdata : List TronTx)
    (tr : TronResp) (chain_lookup : Option String → Option TronRawTxInfo)
    (address : String) (amount : ℚ) :
    verify_btc_payment none address amount = fetchFailed
    ∧ verify_btc_payment (some []) address amount = fetchFailed
    ∧ (txs ≠ [] →
        (∀ tx ∈ txs, ∀ o ∈ tx.vout, btcVoutQualifies address amount tx o = false) →
        verify_btc_payment (some txs) address amount = notFound)
    ∧ ((verify_btc_payment resp address amount).verified = true →
        ∃ tx ∈ resp.getD [], ∃ o ∈ tx.vout, btcVoutQualifies address amount tx o = true)
    ∧ verify_eth_usdt_payment none address amount = fetchFailed
    ∧ (er.status ≠ "1" → verify_eth_usdt_payment (some er) address amount = fetchFailed)
    ∧ ((∀ tx ∈ etxs, ethQualifies address amount tx = false) →
        verify_eth_usdt_payment (some { status := "1", result := etxs }) address amount
          = notFound)
    ∧ verify_bsc_usdt_payment none address amount = fetchFailed
    ∧ (br.status ≠ "1" → verify_bsc_usdt_payment (some br) address amount = fetchFailed)
    ∧ ((∀ tx ∈ bscTxs, bscQualifies address amount tx = false) →
        verify_bsc_usdt_payment (some { status := "1", result := bscTxs }) address amount
          = notFound)
    ∧ verify_tron_usdt_payment none chain_lookup address amount = fetchFailed
    ∧ (tr.success = false →
        verify_tron_usdt_payment (some tr) chain_lookup address amount = fetchFailed)
    ∧ ((∀ tx ∈ tdata, tronQualifies chain_lookup address amount tx = false) →
        verify_tron_usdt_payment (some { success := true, data := tdata }) chain_lookup
          address amount = notFound)
    ∧ fetchFailed.verified = false
    ∧ fetchFailed.error = some "Failed to fetch transactions"
    ∧ fetchFailed.reason = none
    ∧ notFound.verified = false
    ∧ notFound.reason = some "Payment not found or insufficient amount" := by
  refine ⟨rfl, rfl, ?_, ?_, rfl, ?_, ?_, rfl, ?_, ?_, rfl, ?_, ?_,
    rfl, rfl, rfl, rfl, rfl⟩
  · intro hne hall
    cases txs with
    | nil => exact absurd rfl hne
    | cons t ts =>
      rw [verify_btc_cons_eval]
      have hnone : btcFindQualifying (t :: ts) address amount = none := by
        unfold btcFindQualifying
        rw [List.findSome?_eq_none_iff]
        intro tx htx
        have hf : tx.vout.find? (btcVoutQualifies address amount tx) = none := by
          rw [List.find?_eq_none]
          intro o ho
          simp [hall tx htx o ho]
        rw [hf]
        rfl
      rw [hnone]
  · intro hv
    cases resp with
    | none => simp [verify_btc_payment, fetchFailed] at hv
    | some l =>
      cases l with
      | nil => simp [verify_btc_payment, fetchFailed] at hv
      | cons t ts =>
        rw [verify_btc_cons_eval] at hv
        rcases hfind : btcFindQualifying (t :: ts) address amount with _ | ⟨tx, o⟩
        · rw [hfind] at hv
          simp [notFound] at hv
        · obtain ⟨htx, ho, hq⟩ := btcFindQualifying_some _ _ _ _ _ hfind
          exact ⟨tx, htx, o, ho, hq⟩
  · intro hs
    unfold verify_eth_usdt_payment
    simp [hs]
  · intro hall
    rw [verify_eth_ok_eval]
    have hnone : etxs.find? (ethQualifies address amount) = none := by
      rw [List.find?_eq_none]
      intro tx htx
      simp [hall tx htx]
    rw [hnone]
  · intro hs
    unfold verify_bsc_usdt_payment
    simp [hs]
  · intro hall
    rw [verify_bsc_ok_eval]
    have hnone : bscTxs.find? (bscQualifies address amount) = none := by
      rw [List.find?_eq_none]
      intro tx htx
      simp [hall tx htx]
    rw [hnone]
  · intro hs
    unfold verify_tron_usdt_payment
    simp [hs]
  · intro hall
    rw [verify_tron_ok_eval]
    have hnone : tdata.find? (tronQualifies chain_lookup address amount) = none := by
      rw [List.find?_eq_none]
      intro tx htx
      simp [hall tx htx]
    rw [hnone]

/-- Witness for the amended C8: a successful non-empty BTC response whose
only transfer pays a different address reduces to the not-found result, and
the ETH/BSC/TRON verifiers reduce successful *empty* transfer lists to the
not-found result as well. -/
theorem C8_amended_witness :
    verify_btc_payment (some [btcTxLow]) "1OtherAddr" 1 = notFound
    ∧ verify_eth_usdt_payment (some { status := "1", result := [] }) "0xab" 1
        = notFound
    ∧ verify_bsc_usdt_payment (some { status := "1", result := [] }) "0xab" 1
        = notFound
    ∧ verify_tron_usdt_payment (some { success := true, data := [] })
        sampleTronLookup "TAddr1" 1 = notFound := by
  have hall : ∀ tx ∈ [btcTxLow], ∀ o ∈ tx.vout,
      btcVoutQualifies "1OtherAddr" 1 tx o = false := by
    intro tx htx o ho
    fin_cases htx
    fin_cases ho
    norm_num [btcVoutQualifies, btcScale, btcTxLow]
  refine ⟨?_, ?_, ?_, ?_⟩
  · exact (C8_amended_failure_semantics [btcTxLow] none [] [] {} {} [] {}
      sampleTronLookup "1OtherAddr" 1).2.2.1 (by decide) hall
  · exact (C8_amended_failure_semantics [] none [] [] {} {} [] {}
      sampleTronLookup "0xab" 1).2.2.2.2.2.2.1 (by simp)
  · exact (C8_amended_failure_semantics [] none [] [] {} {} [] {}
      sampleTronLookup "0xab" 1).2.2.2.2.2.2.2.2.2.1 (by simp)
  · exact (C8_amended_failure_semantics [] none [] [] {} {} [] {}
      sampleTronLookup "TAddr1" 1).2.2.2.2.2.2.2.2.2.2.2.2.1 (by simp)

/-- Counterexample to claim C9: the scenario of a confirmed 0.005-BTC
transfer against an expected 0.01 BTC — the chain verifier reports the
unverified not-found result (not `partial`), and the manual status-check
path reports `pending`; no path maps the observation to `partial`. -/
theorem C9_counterexample :
    (verify_btc_payment (some [btcTxLow]) "1BtcAddr" (1/100)).verified = false
    ∧ (verify_btc_payment (some [btcTxLow]) "1BtcAddr" (1/100)).reason
        = some "Payment not found or insufficient amount"
    ∧ (check_manual_payment_status "manual_ab12cd34").status = "pending" := by
  have hfind : btcFindQualifying [btcTxLow] "1BtcAddr" (1/100) = none := by
    norm_num [btcFindQualifying, List.findSome?, List.find?, btcVoutQualifies,
      btcScale, btcTxLow]
  refine ⟨?_, ?_, rfl⟩ <;> rw [verify_btc_cons_eval, hfind] <;> rfl

/-- Claim C9 as amended: a transfer strictly below the expected amount never
yields `completed` — the chain verifier never credits it (any verified
result carries an amount at least the expected one, and a below-amount
observation reduces to not-found while the manual path stays `pending`);
only the NowPayments adapter maps a partial payment to `partial`, which is
distinct from `completed`. -/
theorem C9_amended_below_amount_never_completed (resp : Option (List BtcTx))
    (address : String) (amount q : ℚ) :
    ((verify_btc_payment resp address amount).verified = true →
      (verify_btc_payment resp address amount).amount = some q → amount ≤ q)
    ∧ npStatusMap "partially_paid" = "partial"
    ∧ npStatusMap "partially_paid" ≠ "completed"
    ∧ (∀ invoice_id, (check_manual_payment_status invoice_id).status = "pending") := by
  refine ⟨?_, rfl, by decide, fun invoice_id => rfl⟩
  intro hv hq
  cases resp with
  | none => simp [verify_btc_payment, fetchFailed] at hv
  | some l =>
    cases l with
    | nil => simp [verify_btc_payment, fetchFailed] at hv
    | cons t ts =>
      rw [verify_btc_cons_eval] at hv hq
      rcases hfind : btcFindQualifying (t :: ts) address amount with _ | ⟨tx, o⟩
      · rw [hfind] at hv
        simp [notFound] at hv
      · rw [hfind] at hq
        obtain ⟨-, -, hqual⟩ := btcFindQualifying_some _ _ _ _ _ hfind
        have hge : amount ≤ btcScale o.value := by
          simp only [btcVoutQualifies, Bool.and_eq_true, decide_eq_true_eq,
            ge_iff_le] at hqual
          exact hqual.1.2
        have hq2 : btcScale o.value = q := by simpa using hq
        rwa [hq2] at hge

/-- Witness for the amended C9: a confirmed 0.02-BTC transfer against an
expected 0.01 BTC verifies, and its credited amount is at least the
expectation. -/
theorem C9_amended_witness :
    (verify_btc_payment (some [btcTxGood]) "1BtcAddr" ((1 : ℚ)/100)).verified = true
    ∧ (1 : ℚ)/100 ≤ 1/50 := by
  have hfind : btcFindQualifying [btcTxGood] "1BtcAddr" ((1 : ℚ)/100)
      = some (btcTxGood, { scriptpubkey_address := some "1BtcAddr", value := 2000000 }) := by
    norm_num [btcFindQualifying, List.findSome?, List.find?, btcVoutQualifies,
      btcScale, btcTxGood]
  have hv : (verify_btc_payment (some [btcTxGood]) "1BtcAddr" ((1 : ℚ)/100)).verified
      = true := by
    rw [verify_btc_cons_eval, hfind]
  have ham : (verify_btc_payment (some [btcTxGood]) "1BtcAddr" ((1 : ℚ)/100)).amount
      = some ((1 : ℚ)/50) := by
    rw [verify_btc_cons_eval, hfind]
    norm_num [btcScale]
  exact ⟨hv, (C9_amended_below_amount_never_completed (some [btcTxGood]) "1BtcAddr"
    ((1 : ℚ)/100) ((1 : ℚ)/50)).1 hv ham⟩

end CryptoSignals
